import Mathlib

/-!
Verification of the ManTraq manpower-management core (`src/app.py`).

Shallow embedding conventions:
* SQLite tables become Lean lists of structure rows; `AUTOINCREMENT` primary
  keys become an explicit `next_id` counter threaded through the state.
* SQL `REAL` amounts and working hours become `Rat` (exact arithmetic in place
  of Python floats).
* ISO-8601 timestamp strings, which the code compares lexicographically in SQL
  (chronological order for the fixed format), become `Rat` numbers of seconds,
  compared with `≤`; `total_seconds() / 3600.0` becomes division by `3600`.
* `fetchone()` on a `SELECT ... WHERE k = ?` becomes `List.find?`;
  `UPDATE ... WHERE k = ?` becomes a `List.map` that rewrites matching rows.
* Python's `None` / SQL `NULL` become `Option`.
-/

namespace ManTraq

/-- Row of the `employees` table (`init_db` in `src/app.py`).  Blob columns are
kept as optional strings; they carry no logic. -/
structure Employee where
  employee_id : String
  full_name : String
  contact_number : String
  email : String
  aadhar : String
  dob : String
  address : String
  photo : Option String
  aadhar_photo : Option String
  signature_photo : Option String
  role : String
  password : String
  assigned_client_id : Option String
  rate_per_hour : Option Rat
deriving DecidableEq

/-- Row of the `attendance` table.  `check_out_time = none` marks an open
session. -/
structure AttendanceRow where
  id : Nat
  employee_id : String
  check_in_time : Rat
  check_in_location : String
  check_in_selfie : Option String
  check_out_time : Option Rat
  check_out_location : Option String
  working_hours : Option Rat
deriving DecidableEq

/-- Row of the `clients` table. -/
structure Client where
  client_id : String
  org_name : String
  description : String
  requirements : String
  company_contact : String
  company_email : String
  person_in_charge_name : String
  person_in_charge_phone : String
  person_in_charge_email : String
  company_type : String
  total_bill : Rat
  outstanding : Rat
deriving DecidableEq

/-- Row of the `installments` table. -/
structure InstallmentRow where
  id : Nat
  client_id : String
  amount_paid : Rat
  timestamp : Rat
deriving DecidableEq

/-- The whole SQLite database `company.db`: the four tables plus the
autoincrement counters of `attendance.id` and `installments.id`. -/
structure DB where
  employees : List Employee
  attendance : List AttendanceRow
  attendance_next_id : Nat
  clients : List Client
  installments : List InstallmentRow
  installments_next_id : Nat
deriving DecidableEq

/-- The data supplied by the Register Client form: every `clients` column
except `outstanding`, which `register_client` derives itself. -/
structure ClientData where
  client_id : String
  org_name : String
  description : String
  requirements : String
  company_contact : String
  company_email : String
  person_in_charge_name : String
  person_in_charge_phone : String
  person_in_charge_email : String
  company_type : String
  total_bill : Rat
deriving DecidableEq

/-- Result of `check_out_attendance`: the Python function returns either
`(None, error_message)` or `(working_hours, checkout_iso_timestamp)`. -/
inductive CheckOutResult where
  | noOpenSession (message : String)
  | ok (working_hours : Rat) (check_out_time : Rat)
deriving DecidableEq

/-- `check_in_attendance employee_id now location selfie db`
(`src/app.py:148`): inserts a new attendance row with the current timestamp
and null checkout columns, and returns the check-in time. -/
def check_in_attendance (employee_id : String) (now : Rat) (location : String)
    (selfie : Option String) (db : DB) : Rat × DB :=
  (now,
   { db with
     attendance := db.attendance ++
       [{ id := db.attendance_next_id
          employee_id := employee_id
          check_in_time := now
          check_in_location := location
          check_in_selfie := selfie
          check_out_time := none
          check_out_location := none
          working_hours := none }]
     attendance_next_id := db.attendance_next_id + 1 })

/-- The `SELECT ... ORDER BY check_in_time DESC LIMIT 1` scan: fold over the
candidate rows keeping the one with the largest `check_in_time` (the first
such row on ties). -/
def pickLatest : Option AttendanceRow → List AttendanceRow → Option AttendanceRow
  | acc, [] => acc
  | none, r :: rest => pickLatest (some r) rest
  | some b, r :: rest =>
      pickLatest (some (if b.check_in_time < r.check_in_time then r else b)) rest

/-- The row targeted by `check_out_attendance`: the open attendance row of the
employee with the greatest check-in time (`SELECT * FROM attendance WHERE
employee_id = ? AND check_out_time IS NULL ORDER BY check_in_time DESC
LIMIT 1`, `src/app.py:170`). -/
def selectLatestOpen (employee_id : String) (rows : List AttendanceRow) :
    Option AttendanceRow :=
  pickLatest none
    (rows.filter fun r =>
      decide (r.employee_id = employee_id ∧ r.check_out_time = none))

/-- Closing an attendance row: the `UPDATE attendance SET check_out_time = ?,
check_out_location = ?, working_hours = ? WHERE id = ?` applied to one row. -/
def closeRow (row : AttendanceRow) (now : Rat) (location : String)
    (working_hours : Rat) : AttendanceRow :=
  { row with
    check_out_time := some now
    check_out_location := some location
    working_hours := some working_hours }

/-- `check_out_attendance employee_id` (`src/app.py:166`), with the wall-clock
`now` and the geolocation string passed explicitly.  Selects the latest open
session; if none exists returns the error message, otherwise computes
`working_hours = (check_out_time - check_in_time).total_seconds() / 3600.0`
and updates exactly the rows whose `id` matches the selected row. -/
def check_out_attendance (employee_id : String) (now : Rat) (location : String)
    (db : DB) : CheckOutResult × DB :=
  match selectLatestOpen employee_id db.attendance with
  | none =>
      (.noOpenSession "No check-in record found. Please check in first.", db)
  | some record =>
      let working_hours := (now - record.check_in_time) / 3600
      (.ok working_hours now,
       { db with
         attendance := db.attendance.map fun row =>
           if row.id = record.id then closeRow row now location working_hours
           else row })

/-- Breakdown returned by `calculate_salary`. -/
structure SalaryBreakdown where
  total_hours : Rat
  base_salary : Rat
  retirement_benefits1 : Rat
  retirement_benefits2 : Rat
  insurance1 : Rat
  insurance2 : Rat
  actual_salary : Rat
deriving DecidableEq

/-- The `SELECT rate_per_hour FROM employees WHERE employee_id = ?` lookup
followed by the Python null test: `none` when the employee row is absent or
its `rate_per_hour` column is NULL. -/
def employeeRate (employee_id : String) (db : DB) : Option Rat :=
  (db.employees.find? fun emp => emp.employee_id == employee_id).bind
    fun emp => emp.rate_per_hour

/-- The rows `calculate_salary` aggregates over: `check_out_time IS NOT NULL
AND check_in_time >= start_month` for the employee. -/
def monthRows (employee_id : String) (start_month : Rat) (db : DB) :
    List AttendanceRow :=
  db.attendance.filter fun row =>
    decide (row.employee_id = employee_id ∧ row.check_out_time ≠ none ∧
      start_month ≤ row.check_in_time)

/-- `calculate_salary employee_id` (`src/app.py:196`), with `start_month`
(the first day of the caller's current month, derived from `now`) passed
explicitly.  Returns `none` when `fetchone()` is `None` or the rate column is
NULL; otherwise sums `working_hours` over the employee's closed sessions with
`check_in_time >= start_month` (SQL `SUM` yields NULL on the empty set, which
the code replaces by 0) and derives the fixed percentage lines. -/
def calculate_salary (employee_id : String) (start_month : Rat) (db : DB) :
    Option SalaryBreakdown :=
  match employeeRate employee_id db with
  | none => none
  | some rate_per_hour =>
      let total_hours :=
        ((monthRows employee_id start_month db).map fun row =>
          row.working_hours.getD 0).sum
      let base_salary := rate_per_hour * total_hours
      let retirement_benefits1 := (12 : Rat) / 100 * base_salary
      let retirement_benefits2 := (13 : Rat) / 100 * base_salary
      let insurance1 := (5 : Rat) / 100 * base_salary
      let insurance2 := (5 : Rat) / 100 * base_salary
      let actual_salary := base_salary - (retirement_benefits1 + insurance1)
      some
        { total_hours := total_hours
          base_salary := base_salary
          retirement_benefits1 := retirement_benefits1
          retirement_benefits2 := retirement_benefits2
          insurance1 := insurance1
          insurance2 := insurance2
          actual_salary := actual_salary }

/-- The row `register_client` inserts: every column from the form, with
`outstanding` set to `total_bill` (`src/app.py:263`). -/
def clientRow (client : ClientData) : Client :=
  { client_id := client.client_id
    org_name := client.org_name
    description := client.description
    requirements := client.requirements
    company_contact := client.company_contact
    company_email := client.company_email
    person_in_charge_name := client.person_in_charge_name
    person_in_charge_phone := client.person_in_charge_phone
    person_in_charge_email := client.person_in_charge_email
    company_type := client.company_type
    total_bill := client.total_bill
    outstanding := client.total_bill }

/-- `register_client client` (`src/app.py:243`): one `INSERT INTO clients`. -/
def register_client (client : ClientData) (db : DB) : DB :=
  { db with clients := db.clients ++ [clientRow client] }

/-- The `SELECT outstanding FROM clients WHERE client_id = ?` lookup. -/
def getOutstanding (client_id : String) (db : DB) : Option Rat :=
  (db.clients.find? fun c => c.client_id == client_id).map fun c => c.outstanding

/-- `record_installment client_id amount` (`src/app.py:296`), with the
timestamp passed explicitly.  Always inserts the installment row first; then,
only if the client row exists, writes `outstanding - amount` back into the
client row.  The Python function returns `None` in every case: there is no
error channel. -/
def record_installment (client_id : String) (amount : Rat) (now : Rat)
    (db : DB) : DB :=
  let db1 : DB :=
    { db with
      installments := db.installments ++
        [{ id := db.installments_next_id
           client_id := client_id
           amount_paid := amount
           timestamp := now }]
      installments_next_id := db.installments_next_id + 1 }
  match db1.clients.find? fun c => c.client_id == client_id with
  | none => db1
  | some c =>
      { db1 with
        clients := db1.clients.map fun row =>
          if row.client_id = client_id then
            { row with outstanding := c.outstanding - amount }
          else row }

/-- A sequence of `record_installment` calls for one client: the payments are
(amount, timestamp) pairs applied in order. -/
def record_installments (client_id : String) (payments : List (Rat × Rat))
    (db : DB) : DB :=
  payments.foldl (fun db p => record_installment client_id p.1 p.2 db) db

/-- Total hours as the specification words them for claim C6: closed sessions
of the employee whose check-in time lies in `[period_start, period_end)` —
with the upper bound at the caller's `now`, which the SQL query does not
impose. -/
def specTotalHours (employee_id : String) (period_start period_end : Rat)
    (db : DB) : Rat :=
  ((db.attendance.filter fun row =>
      decide (row.employee_id = employee_id ∧ row.check_out_time ≠ none ∧
        period_start ≤ row.check_in_time ∧ row.check_in_time < period_end)).map
    fun row => row.working_hours.getD 0).sum

end ManTraq

namespace ManTraq

/-! ### Example rows and databases used by witnesses and counterexamples -/

/-- An employee row with the given hourly rate and no other distinguishing
data. -/
def exEmployee (rate : Option Rat) : Employee :=
  { employee_id := "e1"
    full_name := "Asha"
    contact_number := ""
    email := ""
    aadhar := ""
    dob := ""
    address := ""
    photo := none
    aadhar_photo := none
    signature_photo := none
    role := "Employee"
    password := "pw"
    assigned_client_id := none
    rate_per_hour := rate }

/-- The empty database, as `init_db` creates it. -/
def emptyDB : DB :=
  { employees := []
    attendance := []
    attendance_next_id := 0
    clients := []
    installments := []
    installments_next_id := 0 }

/-- A database holding one employee with hourly rate 10 and nothing else. -/
def exDbRate : DB := { emptyDB with employees := [exEmployee (some 10)] }

/-- A database holding one employee whose `rate_per_hour` is NULL. -/
def exDbNoRate : DB := { emptyDB with employees := [exEmployee none] }

/-! ### C1: salary percentage lines -/

/-- C1: for every employee with a configured hourly rate, `calculate_salary`
returns a breakdown with `retirement_benefits1 = 0.12 * base_salary`,
`retirement_benefits2 = 0.13 * base_salary`, `insurance1 = insurance2 =
0.05 * base_salary`, and `actual_salary = base_salary - (retirement_benefits1
+ insurance1) = 0.83 * base_salary` exactly; `retirement_benefits2` and
`insurance2` are never subtracted from the net pay. -/
theorem calculate_salary_percentages (db : DB) (e : String) (sm rate : Rat)
    (h : employeeRate e db = some rate) :
    ∃ s, calculate_salary e sm db = some s ∧
      s.retirement_benefits1 = 0.12 * s.base_salary ∧
      s.retirement_benefits2 = 0.13 * s.base_salary ∧
      s.insurance1 = 0.05 * s.base_salary ∧
      s.insurance2 = 0.05 * s.base_salary ∧
      s.actual_salary = s.base_salary - (s.retirement_benefits1 + s.insurance1) ∧
      s.actual_salary = 0.83 * s.base_salary := by
  unfold calculate_salary
  rw [h]
  refine ⟨_, rfl, ?_, ?_, ?_, ?_, ?_, ?_⟩
  all_goals simp only []
  all_goals norm_num
  all_goals ring

/-- Witness for C1 at a concrete database: employee `e1` with rate 10. -/
theorem calculate_salary_percentages_witness :
    ∃ s, calculate_salary "e1" 0 exDbRate = some s ∧
      s.retirement_benefits1 = 0.12 * s.base_salary ∧
      s.retirement_benefits2 = 0.13 * s.base_salary ∧
      s.insurance1 = 0.05 * s.base_salary ∧
      s.insurance2 = 0.05 * s.base_salary ∧
      s.actual_salary = s.base_salary - (s.retirement_benefits1 + s.insurance1) ∧
      s.actual_salary = 0.83 * s.base_salary :=
  calculate_salary_percentages exDbRate "e1" 0 10 (by decide)

/-! ### C7: client registration initializes outstanding -/

/-- C7: `register_client` appends the client row with `outstanding` set to the
supplied `total_bill` (the caller never supplies `outstanding`), so a client
registered with `total_bill` has that amount outstanding immediately. -/
theorem register_client_outstanding (db : DB) (data : ClientData)
    (hfresh : db.clients.find? (fun c => c.client_id == data.client_id) = none) :
    (register_client data db).clients = db.clients ++ [clientRow data] ∧
    (clientRow data).outstanding = data.total_bill ∧
    getOutstanding data.client_id (register_client data db) =
      some data.total_bill := by
  refine ⟨rfl, rfl, ?_⟩
  simp [getOutstanding, register_client, List.find?_append, hfresh, clientRow,
    List.find?]

/-- Witness client form data with `total_bill = 1000`. -/
def exClientData : ClientData :=
  { client_id := "c1"
    org_name := "Acme"
    description := ""
    requirements := ""
    company_contact := ""
    company_email := ""
    person_in_charge_name := ""
    person_in_charge_phone := ""
    person_in_charge_email := ""
    company_type := "GEM"
    total_bill := 1000 }

/-- Witness for C7: registering `c1` with `total_bill = 1000` into the empty
database yields `outstanding = 1000`. -/
theorem register_client_outstanding_witness :
    (register_client exClientData emptyDB).clients =
      emptyDB.clients ++ [clientRow exClientData] ∧
    (clientRow exClientData).outstanding = 1000 ∧
    getOutstanding "c1" (register_client exClientData emptyDB) = some 1000 :=
  register_client_outstanding emptyDB exClientData (by decide)

/-! ### C4: checkout with no open session -/

/-- If no open session of the employee exists, the `SELECT ... LIMIT 1` scan
returns nothing. -/
theorem selectLatestOpen_eq_none (e : String) (rows : List AttendanceRow)
    (h : ∀ row ∈ rows, row.employee_id = e → row.check_out_time ≠ none) :
    selectLatestOpen e rows = none := by
  unfold selectLatestOpen
  have hnil : rows.filter
      (fun r => decide (r.employee_id = e ∧ r.check_out_time = none)) = [] := by
    refine List.filter_eq_nil_iff.mpr ?_
    intro a ha
    simp only [decide_eq_true_eq, not_and]
    exact h a ha
  rw [hnil]
  rfl

/-- C4: for an employee with no open session, `check_out_attendance` returns
the `NoOpenSession` error message as an explicit result value and leaves the
database, in particular the attendance table, unchanged. -/
theorem check_out_no_open_session (db : DB) (e : String) (now : Rat)
    (loc : String)
    (h : ∀ row ∈ db.attendance, row.employee_id = e → row.check_out_time ≠ none) :
    check_out_attendance e now loc db =
      (.noOpenSession "No check-in record found. Please check in first.", db) := by
  unfold check_out_attendance
  rw [selectLatestOpen_eq_none e db.attendance h]

/-- A database with one already-closed session of `e1` and no open one. -/
def exDbClosedOnly : DB :=
  { emptyDB with
    employees := [exEmployee (some 10)]
    attendance := [{ id := 0
                     employee_id := "e1"
                     check_in_time := 100
                     check_in_location := "loc"
                     check_in_selfie := none
                     check_out_time := some 200
                     check_out_location := some "loc"
                     working_hours := some (1 / 36) }]
    attendance_next_id := 1 }

/-- Witness for C4: checking out `e1`, whose only session is closed, yields
the error and the unchanged database. -/
theorem check_out_no_open_session_witness :
    check_out_attendance "e1" 300 "loc" exDbClosedOnly =
      (.noOpenSession "No check-in record found. Please check in first.",
        exDbClosedOnly) :=
  check_out_no_open_session exDbClosedOnly "e1" 300 "loc" (by decide)

/-! ### C9: installment for a missing client -/

/-- C9 counterexample: calling `record_installment` with client id `c1` on the
empty database returns no error (the function has no error result at all) and
still appends an installment row referencing the nonexistent client, refuting
the claim that `NotFound` is surfaced and that no row is silently recorded. -/
theorem record_installment_missing_client_cx :
    (record_installment "c1" 100 0 emptyDB).installments =
      [{ id := 0, client_id := "c1", amount_paid := 100, timestamp := 0 }] ∧
    (record_installment "c1" 100 0 emptyDB).clients = [] :=
  ⟨rfl, rfl⟩

/-- C9 amended: when the client id is absent from the clients table,
`record_installment` silently appends the installment row against the
nonexistent client, performs no outstanding update, and reports no error
(the Python function returns `None` on every path). -/
theorem record_installment_missing_client (db : DB) (c : String) (amt t : Rat)
    (h : db.clients.find? (fun x => x.client_id == c) = none) :
    record_installment c amt t db =
      { db with
        installments := db.installments ++
          [{ id := db.installments_next_id
             client_id := c
             amount_paid := amt
             timestamp := t }]
        installments_next_id := db.installments_next_id + 1 } := by
  unfold record_installment
  simp only [h]

/-- Witness client form data for a client `c9` distinct from `c1`. -/
def exClientData9 : ClientData := { exClientData with client_id := "c9" }

/-- Witness for C9's amended statement at a database whose only client is
`c9`, distinct from the requested `c1`. -/
theorem record_installment_missing_client_witness :
    record_installment "c1" 100 0 (register_client exClientData9 emptyDB) =
      { register_client exClientData9 emptyDB with
        installments := [{ id := 0
                           client_id := "c1"
                           amount_paid := 100
                           timestamp := 0 }]
        installments_next_id := 1 } :=
  record_installment_missing_client (register_client exClientData9 emptyDB)
    "c1" 100 0 (by decide)

end ManTraq

namespace ManTraq

/-! ### C2: installment sequences reduce outstanding by their sum -/

/-- `record_installment` with the `let` unfolded, for rewriting. -/
theorem record_installment_def (client_id : String) (amount now : Rat)
    (db : DB) :
    record_installment client_id amount now db =
      match db.clients.find? fun c => c.client_id == client_id with
      | none =>
          { db with
            installments := db.installments ++
              [{ id := db.installments_next_id
                 client_id := client_id
                 amount_paid := amount
                 timestamp := now }]
            installments_next_id := db.installments_next_id + 1 }
      | some c =>
          { db with
            installments := db.installments ++
              [{ id := db.installments_next_id
                 client_id := client_id
                 amount_paid := amount
                 timestamp := now }]
            installments_next_id := db.installments_next_id + 1
            clients := db.clients.map fun row =>
              if row.client_id = client_id then
                { row with outstanding := c.outstanding - amount }
              else row } := rfl

/-- One `record_installment` call on a present client: outstanding drops by
the amount and exactly one installment row is appended. -/
theorem record_installment_step (db : DB) (c : String) (amt t v : Rat)
    (h : getOutstanding c db = some v) :
    getOutstanding c (record_installment c amt t db) = some (v - amt) ∧
    (record_installment c amt t db).installments =
      db.installments ++
        [{ id := db.installments_next_id
           client_id := c
           amount_paid := amt
           timestamp := t }] := by
  unfold getOutstanding at h
  obtain ⟨cl, hcl, hv⟩ := Option.map_eq_some'.mp h
  have hcid : cl.client_id = c := by
    have := List.find?_some hcl
    simpa using this
  rw [record_installment_def, hcl]
  refine ⟨?_, rfl⟩
  unfold getOutstanding
  simp only []
  rw [List.find?_map]
  have hpf :
      ((fun x : Client => x.client_id == c) ∘ fun row : Client =>
        if row.client_id = c then { row with outstanding := cl.outstanding - amt }
        else row) = fun x : Client => x.client_id == c := by
    funext x
    by_cases hx : x.client_id = c
    · simp [Function.comp, hx]
    · simp [Function.comp, hx]
  rw [hpf, hcl]
  simp only [Option.map_some']
  rw [if_pos hcid]
  simp [hv]

/-- C2: for a client present in the store, a sequence of `record_installment`
calls reduces the client's outstanding by exactly the sum of the amounts
(never clamped at zero, so overpayment drives it negative), appending one
installment row per call. -/
theorem record_installments_ledger (db : DB) (c : String)
    (payments : List (Rat × Rat)) (v : Rat)
    (h : getOutstanding c db = some v) :
    getOutstanding c (record_installments c payments db) =
      some (v - (payments.map Prod.fst).sum) ∧
    ∃ rows, (record_installments c payments db).installments =
        db.installments ++ rows ∧
      rows.length = payments.length := by
  induction payments generalizing db v with
  | nil =>
      refine ⟨by simpa using h, [], by simp [record_installments], rfl⟩
  | cons p rest ih =>
      obtain ⟨h1, h2⟩ := record_installment_step db c p.1 p.2 v h
      obtain ⟨ih1, rows0, ihrows, ihlen⟩ :=
        ih (record_installment c p.1 p.2 db) (v - p.1) h1
      have hfold : record_installments c (p :: rest) db =
          record_installments c rest (record_installment c p.1 p.2 db) := rfl
      refine ⟨?_, ?_⟩
      · rw [hfold, ih1, List.map_cons, List.sum_cons]
        congr 1
        ring
      · refine ⟨{ id := db.installments_next_id
                  client_id := c
                  amount_paid := p.1
                  timestamp := p.2 } :: rows0, ?_, by simp [ihlen]⟩
        rw [hfold, ihrows, h2]
        simp

/-- Witness for C2: client `c1` registered with `total_bill = 1000`, then
installments of 700 and 800; outstanding ends at `1000 - 1500 = -500`,
negative and unclamped, with two rows appended. -/
theorem record_installments_ledger_witness :
    (getOutstanding "c1" (record_installments "c1" [(700, 1), (800, 2)]
        (register_client exClientData emptyDB)) =
      some (1000 - ([((700 : Rat), (1 : Rat)), (800, 2)].map Prod.fst).sum) ∧
     ∃ rows, (record_installments "c1" [(700, 1), (800, 2)]
          (register_client exClientData emptyDB)).installments =
        (register_client exClientData emptyDB).installments ++ rows ∧
       rows.length = ([((700 : Rat), (1 : Rat)), (800, 2)] : List (Rat × Rat)).length) ∧
    (1000 : Rat) - ([((700 : Rat), (1 : Rat)), (800, 2)].map Prod.fst).sum = -500 :=
  ⟨record_installments_ledger (register_client exClientData emptyDB) "c1"
      [(700, 1), (800, 2)] 1000 (by decide),
   by norm_num⟩

end ManTraq

namespace ManTraq

/-! ### C8: missing rate yields a soft null result -/

/-- C8: `calculate_salary` returns `none` exactly when the employee row is
absent or its `rate_per_hour` is NULL; when a rate is configured it always
returns a breakdown, and with no closed session in the month window every
component of the breakdown is 0. -/
theorem calculate_salary_missing_rate (db : DB) (e : String) (sm : Rat) :
    (calculate_salary e sm db = none ↔
      db.employees.find? (fun emp => emp.employee_id == e) = none ∨
      ∃ emp, db.employees.find? (fun emp => emp.employee_id == e) = some emp ∧
        emp.rate_per_hour = none) ∧
    ∀ rate, employeeRate e db = some rate →
      ∃ s, calculate_salary e sm db = some s ∧
        (monthRows e sm db = [] →
          s.total_hours = 0 ∧ s.base_salary = 0 ∧ s.retirement_benefits1 = 0 ∧
          s.retirement_benefits2 = 0 ∧ s.insurance1 = 0 ∧ s.insurance2 = 0 ∧
          s.actual_salary = 0) := by
  constructor
  · unfold calculate_salary employeeRate
    cases hf : db.employees.find? fun emp => emp.employee_id == e with
    | none => simp
    | some emp =>
        cases hr : emp.rate_per_hour with
        | none => simp [hr]
        | some rate => simp [hr]
  · intro rate hr
    unfold calculate_salary
    rw [hr]
    refine ⟨_, rfl, ?_⟩
    intro hnil
    rw [hnil]
    norm_num

/-- Witness for C8: employee `e1` with NULL rate gives `none`; the same
employee with rate 10 and no sessions gives an all-zero breakdown. -/
theorem calculate_salary_missing_rate_witness :
    calculate_salary "e1" 0 exDbNoRate = none ∧
    ∃ s, calculate_salary "e1" 0 exDbRate = some s ∧
      s.total_hours = 0 ∧ s.actual_salary = 0 := by
  constructor
  · exact (calculate_salary_missing_rate exDbNoRate "e1" 0).1.mpr
      (Or.inr ⟨exEmployee none, by decide, rfl⟩)
  · obtain ⟨s, hs, hz⟩ :=
      (calculate_salary_missing_rate exDbRate "e1" 0).2 10 (by decide)
    obtain ⟨h1, -, -, -, -, -, h7⟩ := hz (by decide)
    exact ⟨s, hs, h1, h7⟩

/-! ### C6: the month window has no upper bound in the code -/

/-- A database whose one attendance row is a closed session checked in at
time 200 — after the caller's wall-clock `now = 100` used below. -/
def exDbFuture : DB :=
  { emptyDB with
    employees := [exEmployee (some 10)]
    attendance := [{ id := 0
                     employee_id := "e1"
                     check_in_time := 200
                     check_in_location := "loc"
                     check_in_selfie := none
                     check_out_time := some 210
                     check_out_location := some "loc"
                     working_hours := some 5 }]
    attendance_next_id := 1 }

/-- C6 counterexample: with `start_month = 0` and the caller's `now = 100`,
the only session is checked in at 200, at/after `now`; the claim says it is
excluded from `total_hours`, but `calculate_salary` includes its 5 hours
(the SQL filter has no upper bound), so `total_hours = 5 ≠ 0 =` the
`[start_month, now)` window total. -/
theorem calculate_salary_future_session_cx :
    (0 : Rat) ≤ 100 ∧
    ∃ s, calculate_salary "e1" 0 exDbFuture = some s ∧
      s.total_hours = 5 ∧ specTotalHours "e1" 0 100 exDbFuture = 0 ∧
      (5 : Rat) ≠ 0 := by
  refine ⟨by norm_num, ?_⟩
  refine ⟨_, rfl, ?_, ?_, by norm_num⟩
  · show ((monthRows "e1" 0 exDbFuture).map fun row =>
      row.working_hours.getD 0).sum = 5
    simp [monthRows, exDbFuture, emptyDB, exEmployee, List.filter_cons]
  · simp [specTotalHours, exDbFuture, emptyDB, exEmployee, List.filter_cons]
    norm_num

/-- C6 amended: `calculate_salary` sums `working_hours` over the employee's
closed sessions with `check_in_time ≥ start_month` and no upper bound; the
claimed `[start_month, now)` window is recovered exactly when every attendance
row's check-in time is below the caller's `now`. -/
theorem calculate_salary_month_filter (db : DB) (e : String) (sm : Rat)
    (s : SalaryBreakdown) (h : calculate_salary e sm db = some s) :
    s.total_hours =
      ((monthRows e sm db).map fun row => row.working_hours.getD 0).sum ∧
    ∀ now, (∀ row ∈ db.attendance, row.check_in_time < now) →
      s.total_hours = specTotalHours e sm now db := by
  have h1 : s.total_hours =
      ((monthRows e sm db).map fun row => row.working_hours.getD 0).sum := by
    unfold calculate_salary at h
    cases hr : employeeRate e db with
    | none => rw [hr] at h; exact absurd h (by simp)
    | some rate =>
        rw [hr] at h
        have hs := Option.some.inj h
        rw [← hs]
  refine ⟨h1, ?_⟩
  intro now hnow
  have hf : monthRows e sm db = db.attendance.filter fun row =>
      decide (row.employee_id = e ∧ row.check_out_time ≠ none ∧
        sm ≤ row.check_in_time ∧ row.check_in_time < now) := by
    unfold monthRows
    apply List.filter_congr
    intro row hrow
    rw [decide_eq_decide]
    have hlt := hnow row hrow
    constructor
    · rintro ⟨a, b, c⟩
      exact ⟨a, b, c, hlt⟩
    · rintro ⟨a, b, c, -⟩
      exact ⟨a, b, c⟩
  rw [h1, hf]
  rfl

/-- Witness for C6's amended statement: for `exDbClosedOnly` (one closed
session checked in at 100) with `start_month = 0` and every row checked in
before `now = 300`, the two totals agree. -/
theorem calculate_salary_month_filter_witness :
    ∃ s, calculate_salary "e1" 0 exDbClosedOnly = some s ∧
      s.total_hours =
        ((monthRows "e1" 0 exDbClosedOnly).map fun row =>
          row.working_hours.getD 0).sum ∧
      s.total_hours = specTotalHours "e1" 0 300 exDbClosedOnly := by
  refine ⟨_, rfl, ?_, ?_⟩
  · exact (calculate_salary_month_filter exDbClosedOnly "e1" 0 _ rfl).1
  · exact (calculate_salary_month_filter exDbClosedOnly "e1" 0 _ rfl).2 300
      (by decide)

end ManTraq

namespace ManTraq

/-! ### C3 and C5: checkout targets the latest open session -/

/-- Invariant of the `ORDER BY check_in_time DESC LIMIT 1` fold: the returned
row is the accumulator or a list element, and its check-in time dominates the
accumulator and every list element. -/
theorem pickLatest_spec (l : List AttendanceRow) :
    ∀ acc r, pickLatest acc l = some r →
      (acc = some r ∨ r ∈ l) ∧
      (∀ b, acc = some b → b.check_in_time ≤ r.check_in_time) ∧
      ∀ x ∈ l, x.check_in_time ≤ r.check_in_time := by
  induction l with
  | nil =>
      intro acc r h
      cases acc with
      | none => exact absurd h (by simp [pickLatest])
      | some b =>
          have hbr : b = r := Option.some.inj h
          refine ⟨Or.inl (by rw [hbr]), ?_, by simp⟩
          intro b' hb'
          have hbb : b = b' := Option.some.inj hb'
          rw [← hbb, hbr]
  | cons x rest ih =>
      intro acc r h
      cases acc with
      | none =>
          have h' : pickLatest (some x) rest = some r := h
          obtain ⟨hmem, hacc, hall⟩ := ih (some x) r h'
          have hxr : x.check_in_time ≤ r.check_in_time := hacc x rfl
          refine ⟨Or.inr ?_, by simp, ?_⟩
          · cases hmem with
            | inl he =>
                have hx : x = r := Option.some.inj he
                rw [← hx]
                exact List.mem_cons_self x rest
            | inr hmem2 => exact List.mem_cons_of_mem x hmem2
          · intro y hy
            rcases List.mem_cons.mp hy with rfl | hy2
            · exact hxr
            · exact hall y hy2
      | some b =>
          have h' : pickLatest
              (some (if b.check_in_time < x.check_in_time then x else b))
              rest = some r := h
          obtain ⟨hmem, hacc, hall⟩ :=
            ih (some (if b.check_in_time < x.check_in_time then x else b)) r h'
          have hmr :
              (if b.check_in_time < x.check_in_time then x
                else b).check_in_time ≤ r.check_in_time := hacc _ rfl
          have hbm : b.check_in_time ≤
              (if b.check_in_time < x.check_in_time then x
                else b).check_in_time := by
            by_cases hc : b.check_in_time < x.check_in_time
            · rw [if_pos hc]
              exact le_of_lt hc
            · rw [if_neg hc]
          have hxm : x.check_in_time ≤
              (if b.check_in_time < x.check_in_time then x
                else b).check_in_time := by
            by_cases hc : b.check_in_time < x.check_in_time
            · rw [if_pos hc]
            · rw [if_neg hc]
              exact le_of_not_lt hc
          refine ⟨?_, ?_, ?_⟩
          · cases hmem with
            | inl he =>
                have hm : (if b.check_in_time < x.check_in_time then x
                    else b) = r := Option.some.inj he
                by_cases hc : b.check_in_time < x.check_in_time
                · rw [if_pos hc] at hm
                  refine Or.inr ?_
                  rw [← hm]
                  exact List.mem_cons_self x rest
                · rw [if_neg hc] at hm
                  exact Or.inl (by rw [hm])
            | inr hmem2 => exact Or.inr (List.mem_cons_of_mem x hmem2)
          · intro b' hb'
            have hbb : b = b' := Option.some.inj hb'
            rw [← hbb]
            exact le_trans hbm hmr
          · intro y hy
            rcases List.mem_cons.mp hy with rfl | hy2
            · exact le_trans hxm hmr
            · exact hall y hy2

/-- The selected row is an open session of the employee with the maximal
check-in time among the employee's open sessions. -/
theorem selectLatestOpen_spec (e : String) (rows : List AttendanceRow)
    (r : AttendanceRow) (h : selectLatestOpen e rows = some r) :
    r ∈ rows ∧ r.employee_id = e ∧ r.check_out_time = none ∧
    ∀ x ∈ rows, x.employee_id = e → x.check_out_time = none →
      x.check_in_time ≤ r.check_in_time := by
  unfold selectLatestOpen at h
  obtain ⟨hmem, -, hall⟩ := pickLatest_spec _ none r h
  have hrf : r ∈ rows.filter fun row =>
      decide (row.employee_id = e ∧ row.check_out_time = none) := by
    cases hmem with
    | inl he => exact absurd he (by simp)
    | inr h2 => exact h2
  obtain ⟨hr1, hr2⟩ := List.mem_filter.mp hrf
  have hr3 : r.employee_id = e ∧ r.check_out_time = none := by simpa using hr2
  refine ⟨hr1, hr3.1, hr3.2, ?_⟩
  intro x hx he2 hc2
  exact hall x (List.mem_filter.mpr ⟨hx, by simp [he2, hc2]⟩)

/-- C3: when the employee has an open session, `check_out_attendance` closes
exactly the selected row — the open row of the employee with the greatest
check-in timestamp — writing checkout time, location and working hours into
that single row, and leaves every other attendance row (including older open
ones) and every other table unchanged. -/
theorem check_out_closes_latest (db : DB) (e : String) (now : Rat)
    (loc : String) (r : AttendanceRow)
    (hsel : selectLatestOpen e db.attendance = some r)
    (hnodup : (db.attendance.map fun row => row.id).Nodup) :
    r.employee_id = e ∧ r.check_out_time = none ∧
    (∀ x ∈ db.attendance, x.employee_id = e → x.check_out_time = none →
      x.check_in_time ≤ r.check_in_time) ∧
    (check_out_attendance e now loc db).1 =
      CheckOutResult.ok ((now - r.check_in_time) / 3600) now ∧
    ∃ pre post, db.attendance = pre ++ r :: post ∧
      (check_out_attendance e now loc db).2.attendance =
        pre ++ closeRow r now loc ((now - r.check_in_time) / 3600) :: post ∧
      (check_out_attendance e now loc db).2.employees = db.employees ∧
      (check_out_attendance e now loc db).2.clients = db.clients ∧
      (check_out_attendance e now loc db).2.installments = db.installments := by
  obtain ⟨hmem, hemp, hopen, hmax⟩ := selectLatestOpen_spec e db.attendance r hsel
  have hco : check_out_attendance e now loc db =
      (CheckOutResult.ok ((now - r.check_in_time) / 3600) now,
       { db with
         attendance := db.attendance.map fun row =>
           if row.id = r.id then
             closeRow row now loc ((now - r.check_in_time) / 3600)
           else row }) := by
    unfold check_out_attendance
    rw [hsel]
  obtain ⟨pre, post, hsplit⟩ := List.append_of_mem hmem
  have hnodup2 := hnodup
  rw [hsplit, List.map_append, List.map_cons] at hnodup2
  obtain ⟨-, h2, hdis⟩ := List.nodup_append.mp hnodup2
  have hpre : ∀ x ∈ pre, x.id ≠ r.id := by
    intro x hx heq
    exact hdis (List.mem_map_of_mem _ hx)
      (by rw [heq]; exact List.mem_cons_self _ _)
  have hpost : ∀ x ∈ post, x.id ≠ r.id := by
    intro x hx heq
    have hrnot : r.id ∉ post.map fun row => row.id := (List.nodup_cons.mp h2).1
    exact hrnot (heq ▸ List.mem_map_of_mem _ hx)
  refine ⟨hemp, hopen, hmax, by rw [hco], pre, post, hsplit, ?_,
    by rw [hco], by rw [hco], by rw [hco]⟩
  rw [hco]
  show (db.attendance.map fun row =>
      if row.id = r.id then closeRow row now loc ((now - r.check_in_time) / 3600)
      else row) =
    pre ++ closeRow r now loc ((now - r.check_in_time) / 3600) :: post
  rw [hsplit, List.map_append, List.map_cons, if_pos rfl]
  congr 1
  · calc pre.map (fun row =>
          if row.id = r.id then
            closeRow row now loc ((now - r.check_in_time) / 3600)
          else row)
        = pre.map id := List.map_congr_left fun x hx => by
            rw [if_neg (hpre x hx)]; rfl
      _ = pre := List.map_id pre
  · congr 1
    calc post.map (fun row =>
          if row.id = r.id then
            closeRow row now loc ((now - r.check_in_time) / 3600)
          else row)
        = post.map id := List.map_congr_left fun x hx => by
            rw [if_neg (hpost x hx)]; rfl
      _ = post := List.map_id post

/-- C5: on a successful checkout the working hours written and returned are
`(now - check_in_time) / 3600` — elapsed seconds over 3600, an untruncated
fraction — non-negative whenever `now` is not earlier than check-in, and 0
when checkout happens at the check-in instant. -/
theorem check_out_working_hours (db : DB) (e : String) (now : Rat)
    (loc : String) (r : AttendanceRow)
    (hsel : selectLatestOpen e db.attendance = some r) :
    (check_out_attendance e now loc db).1 =
      CheckOutResult.ok ((now - r.check_in_time) / 3600) now ∧
    (r.check_in_time ≤ now → 0 ≤ (now - r.check_in_time) / 3600) ∧
    (now = r.check_in_time → (now - r.check_in_time) / 3600 = 0) := by
  refine ⟨?_, ?_, ?_⟩
  · unfold check_out_attendance
    rw [hsel]
  · intro hle
    have hnum : (0 : Rat) ≤ now - r.check_in_time := by linarith
    exact div_nonneg hnum (by norm_num)
  · intro heq
    rw [heq]
    simp

/-- An open session of `e1` checked in at time 50. -/
def exRowOpen50 : AttendanceRow :=
  { id := 0
    employee_id := "e1"
    check_in_time := 50
    check_in_location := "loc"
    check_in_selfie := none
    check_out_time := none
    check_out_location := none
    working_hours := none }

/-- A later open session of `e1`, checked in at time 100. -/
def exRowOpen100 : AttendanceRow :=
  { id := 1
    employee_id := "e1"
    check_in_time := 100
    check_in_location := "loc"
    check_in_selfie := none
    check_out_time := none
    check_out_location := none
    working_hours := none }

/-- A database where `e1` has two simultaneously open sessions (the design
gap noted in the spec), checked in at 50 and at 100. -/
def exDbTwoOpen : DB :=
  { emptyDB with
    employees := [exEmployee (some 10)]
    attendance := [exRowOpen50, exRowOpen100]
    attendance_next_id := 2 }

/-- Witness for C3: with two open sessions at 50 and 100, checkout at 300
closes the session checked in at 100 and leaves the older open row intact. -/
theorem check_out_closes_latest_witness :
    exRowOpen100.employee_id = "e1" ∧ exRowOpen100.check_out_time = none ∧
    (∀ x ∈ exDbTwoOpen.attendance, x.employee_id = "e1" →
      x.check_out_time = none →
      x.check_in_time ≤ exRowOpen100.check_in_time) ∧
    (check_out_attendance "e1" 300 "loc2" exDbTwoOpen).1 =
      CheckOutResult.ok ((300 - exRowOpen100.check_in_time) / 3600) 300 ∧
    ∃ pre post, exDbTwoOpen.attendance = pre ++ exRowOpen100 :: post ∧
      (check_out_attendance "e1" 300 "loc2" exDbTwoOpen).2.attendance =
        pre ++ closeRow exRowOpen100 300 "loc2"
          ((300 - exRowOpen100.check_in_time) / 3600) :: post ∧
      (check_out_attendance "e1" 300 "loc2" exDbTwoOpen).2.employees =
        exDbTwoOpen.employees ∧
      (check_out_attendance "e1" 300 "loc2" exDbTwoOpen).2.clients =
        exDbTwoOpen.clients ∧
      (check_out_attendance "e1" 300 "loc2" exDbTwoOpen).2.installments =
        exDbTwoOpen.installments :=
  check_out_closes_latest exDbTwoOpen "e1" 300 "loc2" exRowOpen100
    (by decide) (by decide)

/-- Witness for C5: checking `e1` out at time 300 against the open session
checked in at 100 returns `(300 - 100) / 3600` hours, non-negative. -/
theorem check_out_working_hours_witness :
    (check_out_attendance "e1" 300 "loc2" exDbTwoOpen).1 =
      CheckOutResult.ok ((300 - exRowOpen100.check_in_time) / 3600) 300 ∧
    (exRowOpen100.check_in_time ≤ 300 →
      0 ≤ ((300 : Rat) - exRowOpen100.check_in_time) / 3600) ∧
    ((300 : Rat) = exRowOpen100.check_in_time →
      ((300 : Rat) - exRowOpen100.check_in_time) / 3600 = 0) :=
  check_out_working_hours exDbTwoOpen "e1" 300 "loc2" exRowOpen100 (by decide)

end ManTraq
